import Mathlib

/-!
Shallow embedding of the CSC-CUA-System-Chat conversational orchestration core
(`src/index.tsx` and `src/db.ts`) and proofs about its behaviour.

The embedding translates the TypeScript source into pure Lean functions:
mutable module state (the in-memory OpenAI message list, the Gemini chat
object, the IndexedDB store) becomes explicit state passing; the streaming
provider calls become scripted lists of rounds, each round either yielding
text plus tool calls or raising a provider error; DOM rendering and logging
are dropped, as they never influence the data flow proved about here.
-/

namespace CuaChat

/-- Keys of the `PERSONAS` catalog in `src/index.tsx` (lines 50-61), in
object-literal insertion order. -/
inductive PersonaKey
  | CUA
  | Lyra
  | Kara
  | Sophia
  | Cecilia
  | Guac
  | Andie
  | Dan
  | Stan
  | Dude
deriving DecidableEq, Repr

/-- One persona record, mirroring the fields of each entry of `PERSONAS`. -/
structure Persona where
  name : String
  role : String
  description : String
  summary : String
  tone : Option String
deriving DecidableEq, Repr

/-- The string form of a persona key, as interpolated by the source into
session keys and prefixes (the key and the display name coincide). -/
def PersonaKey.str : PersonaKey → String
  | .CUA => "CUA"
  | .Lyra => "Lyra"
  | .Kara => "Kara"
  | .Sophia => "Sophia"
  | .Cecilia => "Cecilia"
  | .Guac => "Guac"
  | .Andie => "Andie"
  | .Dan => "Dan"
  | .Stan => "Stan"
  | .Dude => "Dude"

/-- The static persona catalog `PERSONAS` of `src/index.tsx` lines 50-61,
transcribed verbatim. -/
def PERSONAS : PersonaKey → Persona
  | .CUA =>
    { name := "CUA", role := "Common User Access",
      description := "You are CUA (Common User Access), a friendly and knowledgeable computer system interface. Respond to user queries as if you are the operating system itself. Use a slightly formal, clear, and helpful tone. Your responses should be formatted as if in a classic terminal. Do not use Markdown.",
      summary := "The classic, friendly computer system interface.",
      tone := none }
  | .Lyra =>
    { name := "Lyra", role := "Master Orchestrator",
      description := "As the Master Orchestrator, you supervise task flows and coordinate multi-agent operations. Your expertise is in data orchestration, validation, and system health.",
      summary := "Supervises task flows and coordinates multi-agent operations.",
      tone := some "Authoritative, precise, and systematic" }
  | .Kara =>
    { name := "Kara", role := "Security & Compliance Officer",
      description := "You monitor all agent actions, ensuring safe orchestration and governance. You are the expert on security protocols, compliance, and risk assessment.",
      summary := "Monitors all agent actions for security, governance, and compliance.",
      tone := some "Vigilant, formal, and uncompromising" }
  | .Sophia =>
    { name := "Sophia", role := "Semantic Intelligence Analyst",
      description := "You handle complex reasoning, semantic mapping, and context linking. Your specialty is in understanding deep context and providing insightful analysis.",
      summary := "Handles complex reasoning, semantic mapping, and deep context analysis.",
      tone := some "Analytical, insightful, and articulate" }
  | .Cecilia =>
    { name := "Cecilia", role := "Assistive Technology Lead",
      description := "You provide real-time guidance and adaptive support to the operator. Your goal is to enhance the user\u0027s workflow with assistive technology.",
      summary := "Provides real-time guidance and adaptive workflow support.",
      tone := some "Helpful, clear, and supportive" }
  | .Guac =>
    { name := "Guac", role := "Communication Moderator",
      description := "You oversee inter-application messaging and network security, ensuring all communications are secure, efficient, and properly routed.",
      summary := "Oversees secure and efficient inter-application messaging.",
      tone := some "Concise, secure, and reliable" }
  | .Andie =>
    { name := "Andie", role := "Code Execution Specialist",
      description := "You specialize in executing and testing code snippets across various languages and environments, ensuring functionality and performance.",
      summary := "Executes and tests code snippets across multiple environments.",
      tone := some "Technical, literal, and efficient" }
  | .Dan =>
    { name := "Dan", role := "Web & API Integrator",
      description := "A full-stack web maestro, you craft seamless user experiences and integrate third-party APIs flawlessly.",
      summary := "Crafts seamless user experiences and integrates third-party APIs.",
      tone := some "Practical, results-driven, and clear" }
  | .Stan =>
    { name := "Stan", role := "Infrastructure Guardian",
      description := "You are a vigilant protector specializing in infrastructure deployment, firewall configurations, and system stability.",
      summary := "Deploys infrastructure and guards system stability with vigilance.",
      tone := some "Professional, cautious, and detail-oriented" }
  | .Dude =>
    { name := "Dude", role := "Automation & Workflow Maestro",
      description := "An expert in workflow automation, you focus on orchestrating complex tasks, managing APIs, and maximizing operational efficiency.",
      summary := "Orchestrates complex tasks and maximizes operational efficiency.",
      tone := some "Organized, prompt, and efficiency-driven" }

/-- The catalog keys in insertion order, matching the iteration order that
`Object.entries` and `Object.keys` observe on the `PERSONAS` object. -/
def personaKeys : List PersonaKey :=
  [.CUA, .Lyra, .Kara, .Sophia, .Cecilia, .Guac, .Andie, .Dan, .Stan, .Dude]

/-- The display names in catalog order, matching
`Object.keys(PERSONA_NAME_TO_KEY_MAP)`. -/
def personaNames : List String :=
  personaKeys.map (fun k => (PERSONAS k).name)

/-- Embedding of the `PERSONA_NAME_TO_KEY_MAP` object lookup
(`src/index.tsx` lines 65-67, used at line 310): an exact, case-sensitive
match of the display name, returning the persona key. -/
def PERSONA_NAME_TO_KEY_MAP (name : String) : Option PersonaKey :=
  personaKeys.find? (fun k => (PERSONAS k).name == name)

/-- Embedding of `generateSystemPrompt` (`src/index.tsx` lines 72-78). The
`tone!` non-null assertion of the source would interpolate the text "null"
were a tone absent, which `Option.getD` with default "null" reproduces. -/
def generateSystemPrompt (personaKey : PersonaKey) : String :=
  let p := PERSONAS personaKey
  if personaKey = .CUA then
    p.description
  else
    "You are " ++ p.name ++ ", a " ++ p.role ++ ". " ++ p.description ++
      " Your tone must be " ++ p.tone.getD "null" ++
      ". You can invoke other agents for tasks outside your expertise."

/-- Embedding of `executeInvokeAgent` (`src/index.tsx` lines 309-351). The
non-streaming sub-agent provider call is abstracted as a function from the
target system prompt and the delegated prompt to a result or a thrown error
message; the catch branch of the source folds a thrown error into the
returned string, so the function is total. -/
def executeInvokeAgent (subProvider : String → String → Except String String)
    (agentName prompt : String) : String :=
  match PERSONA_NAME_TO_KEY_MAP agentName with
  | none => "Error: Agent \u0027" ++ agentName ++ "\u0027 not found."
  | some agentKey =>
    match subProvider (generateSystemPrompt agentKey) prompt with
    | .ok result => result
    | .error msg => "Error during invocation of " ++ agentName ++ ": " ++ msg

/-- A character of the `\w` regex class: ASCII letter, digit, or underscore. -/
def isWordChar (c : Char) : Bool :=
  c.isAlphanum || c = '_'

/-- A whitespace character as trimmed by the JavaScript `trim` method
(restricted to the ASCII whitespace that can occur in this embedding). -/
def isJsWhitespace (c : Char) : Bool :=
  c = ' ' || c = '\t' || c = '\n' || c = '\x0d' || c = '\x0b' || c = '\x0c'

/-- Embedding of `String.prototype.trim`. -/
def jsTrim (s : String) : String :=
  String.mk (((s.data.dropWhile isJsWhitespace).reverse.dropWhile isJsWhitespace).reverse)

/-- A successful match of the mention regex: the captured agent name and the
captured remainder. -/
structure MentionMatch where
  agentName : String
  rest : String
deriving DecidableEq, Repr

/-- Embedding of the anchored regex match
`userInput.match(/^@(\w+)[, ]?(.*)/s)` of `src/index.tsx` line 362-363:
a leading at sign, a maximal nonempty run of word characters, one optional
comma-or-space separator, and the remainder of the string. -/
def matchMention (s : String) : Option MentionMatch :=
  match s.data with
  | [] => none
  | c :: cs =>
    if c = '@' then
      let w := cs.takeWhile isWordChar
      if w.isEmpty then none
      else
        let after := cs.drop w.length
        let after2 :=
          match after with
          | d :: ds => if d = ',' || d = ' ' then ds else after
          | [] => []
        some ⟨String.mk w, String.mk after2⟩
    else none

/-- Embedding of `String.prototype.toLowerCase`, character by character
(all catalog names and mention inputs are ASCII). -/
def jsToLowerCase (s : String) : String :=
  String.mk (s.data.map Char.toLower)

/-- Embedding of the case-insensitive key search of `src/index.tsx` line 371:
`Object.keys(PERSONA_NAME_TO_KEY_MAP).find(name => name.toLowerCase() ===
agentName.toLowerCase())`. -/
def findAgentNameKey (agentName : String) : Option String :=
  personaNames.find? (fun name => jsToLowerCase name == jsToLowerCase agentName)

/-- The three ways a form submission can be routed by the mention-handling
prologue of `handleChatSubmit` (`src/index.tsx` lines 356-421): dropped as a
no-op, short-circuited into a one-off delegation, or passed on to the
provider turn loop with a possibly mention-stripped input. -/
inductive SubmitDispatch
  | noop
  | oneOffDelegation (agentName : String) (promptForAgent : String)
  | orchestrate (userInput : String) (withFile : Bool)
deriving DecidableEq, Repr

/-- Embedding of the routing decisions of `handleChatSubmit` up to the start
of the provider branches (`src/index.tsx` lines 356-421). The branch for a
catalog name whose reverse lookup fails is unreachable, because
`findAgentNameKey` only returns names of the catalog; it falls through to
the orchestrator path like the other non-delegating branches. -/
def handleSubmitDispatch (activePersona : PersonaKey) (hasStagedFile : Bool)
    (rawInput : String) : SubmitDispatch :=
  let userInput := jsTrim rawInput
  if userInput = "" ∧ hasStagedFile = false then .noop
  else
    match matchMention userInput, hasStagedFile with
    | some m, false =>
      let agentName := m.agentName
      let promptForAgent := jsTrim m.rest
      match findAgentNameKey agentName with
      | some agentNameKey =>
        if promptForAgent ≠ "" then
          match PERSONA_NAME_TO_KEY_MAP agentNameKey with
          | some targetPersonaKey =>
            if targetPersonaKey = activePersona then
              if promptForAgent = "" ∧ hasStagedFile = false then .noop
              else .orchestrate promptForAgent hasStagedFile
            else .oneOffDelegation agentName promptForAgent
          | none => .orchestrate userInput hasStagedFile
        else .orchestrate userInput hasStagedFile
      | none => .orchestrate userInput hasStagedFile
    | _, _ => .orchestrate userInput hasStagedFile

/-- One part of a Gemini-shaped message, mirroring `GeminiPart` of
`src/db.ts` lines 12-26. Function-call arguments and function-response
payloads are modelled as key-value string lists. -/
structure GeminiPart where
  text : Option String
  inlineData : Option (String × String)
  functionCall : Option (String × List (String × String))
  functionResponse : Option (String × List (String × String))
deriving DecidableEq, Repr

/-- A Gemini-shaped message (`GeminiMessage` of `src/db.ts` lines 30-33);
the source types the role as the literal union of "user" and "model". -/
structure GeminiMessage where
  role : String
  parts : List GeminiPart
deriving DecidableEq, Repr

/-- A part of multi-part OpenAI-shaped message content: a text part or an
image-URL part. -/
inductive OAIContentPart
  | text (t : String)
  | imageUrl (url : String)
deriving DecidableEq, Repr

/-- The content field of an OpenAI-shaped message: a plain string, an array
of parts, or null (as on assistant messages that carry only tool calls). -/
inductive OAIContent
  | str (s : String)
  | parts (ps : List OAIContentPart)
  | null
deriving DecidableEq, Repr

/-- One accumulated tool call of the OpenAI stream
(`src/index.tsx` lines 551-559): the reassembled record with its id and
function name; the JSON `arguments` string is modelled already parsed into
the `agentName` and `prompt` fields read at lines 570-575. -/
structure OAIToolCall where
  id : String
  name : String
  agentName : String
  prompt : String
deriving DecidableEq, Repr

/-- An OpenAI-shaped message (`OpenAIMessage` of `src/db.ts` line 35),
restricted to the fields the source reads and writes. -/
structure OAIMessage where
  role : String
  content : OAIContent
  tool_calls : Option (List OAIToolCall)
  tool_call_id : Option String
deriving DecidableEq, Repr

/-- A stored message in either provider-native shape, the union that
`ChatHistory` of `src/db.ts` line 38 ranges over. -/
inductive StoredMessage
  | gemini (m : GeminiMessage)
  | openai (m : OAIMessage)
deriving DecidableEq, Repr

/-- A transcript: an ordered sequence of messages in provider-native shape
(`ChatHistory` of `src/db.ts` line 38). -/
def ChatHistory := List StoredMessage
deriving instance DecidableEq, Repr for ChatHistory

/-- The role of a stored message, as read by `m.role` in the source, which
accesses the field uniformly on both shapes. -/
def roleOfStored : StoredMessage → String
  | .gemini m => m.role
  | .openai m => m.role

/-- The record stored in IndexedDB (`ChatSession` of `src/db.ts` lines
41-44): the session key (under the field name `provider`, the key path of
the object store) and the transcript. -/
structure ChatSession where
  provider : String
  history : ChatHistory
deriving DecidableEq, Repr

/-- The IndexedDB object store `chat_sessions`, modelled as a keyed map from
session-key strings to stored records. -/
def DB := String → Option ChatSession

/-- The empty store. -/
def dbEmpty : DB := fun _ => none

/-- The `put` operation of the object store: upsert by the `provider` key
path. -/
def dbPut (db : DB) (s : ChatSession) : DB :=
  fun k => if k = s.provider then some s else db k

/-- The `get` operation of the object store. -/
def dbGet (db : DB) (key : String) : Option ChatSession :=
  db key

/-- The `delete` operation of the object store. -/
def dbDelete (db : DB) (key : String) : DB :=
  fun k => if k = key then none else db k

/-- Embedding of `saveHistory` (`src/db.ts` lines 84-98): store the record
`{provider: key, history}` by `put`. -/
def saveHistory (db : DB) (key : String) (history : ChatHistory) : DB :=
  dbPut db ⟨key, history⟩

/-- Embedding of `getHistory` (`src/db.ts` lines 105-120): return the stored
record for the key, or none. -/
def getHistory (db : DB) (key : String) : Option ChatSession :=
  dbGet db key

/-- Embedding of `clearHistory` (`src/db.ts` lines 126-139): delete the
record for the key. -/
def clearHistory (db : DB) (key : String) : DB :=
  dbDelete db key

/-- One accumulated function call of the Gemini stream
(`chunk.functionCalls`, `src/index.tsx` lines 494-496): the function name
and its `agentName` and `prompt` arguments, read at line 503. -/
structure GeminiFunctionCall where
  name : String
  agentName : String
  prompt : String
deriving DecidableEq, Repr

/-- The aggregate of one streamed Gemini round: the concatenated text
chunks and the collected function calls, in emission order. -/
structure GeminiRound where
  text : String
  functionCalls : List GeminiFunctionCall
deriving DecidableEq, Repr

/-- The aggregate of one streamed OpenAI round: the concatenated text deltas
and the reassembled tool calls, in emission order. -/
structure OAIRound where
  text : String
  toolCalls : List OAIToolCall
deriving DecidableEq, Repr

/-- How a turn of the orchestrator loop ends: a terminal textual answer, a
thrown provider error, or exhaustion of the scripted provider while the
loop still expects another round (the image of nontermination in the
finite script model). -/
inductive TurnTermination
  | completed (finalText : String)
  | failed (errMsg : String)
  | divergent
deriving DecidableEq, Repr

/-- Embedding of the Gemini tool-call loop of `handleChatSubmit`
(`src/index.tsx` lines 474-519). The scripted provider yields one round per
streaming call, or an error standing for a thrown `ProviderError`. Returns
the termination of the loop together with the trace of delegations handed
to the delegation executor, in order. `fullResponse` is overwritten by each
round, so the completed text is the text of the final round. -/
def geminiToolLoop (exec : String → String → String) :
    List (Except String GeminiRound) → TurnTermination × List (String × String)
  | [] => (.divergent, [])
  | .error e :: _ => (.failed e, [])
  | .ok r :: rest =>
    match r.functionCalls with
    | [] => (.completed r.text, [])
    | call :: _ =>
      let _toolResult := exec call.agentName call.prompt
      let res := geminiToolLoop exec rest
      (res.1, (call.agentName, call.prompt) :: res.2)

/-- Embedding of the OpenAI tool-call loop of `handleChatSubmit`
(`src/index.tsx` lines 535-584), which additionally mutates the
`openAIMessages` context: on a round with tool calls it appends one
assistant message carrying all accumulated tool calls and one `tool`
message answering `toolCalls[0]`; on a plain round it appends the final
assistant message. Returns the termination, the resulting message list and
the delegation trace. -/
def openAIToolLoop (exec : String → String → String) :
    List (Except String OAIRound) → List OAIMessage →
    TurnTermination × List OAIMessage × List (String × String)
  | [], msgs => (.divergent, msgs, [])
  | .error e :: _, msgs => (.failed e, msgs, [])
  | .ok r :: rest, msgs =>
    match r.toolCalls with
    | [] =>
      (.completed r.text,
       msgs ++ [{ role := "assistant", content := .str r.text,
                  tool_calls := none, tool_call_id := none }], [])
    | call :: _ =>
      let toolResult := exec call.agentName call.prompt
      let msgs2 := msgs ++
        [{ role := "assistant", content := .null,
           tool_calls := some r.toolCalls, tool_call_id := none },
         { role := "tool", content := .str toolResult,
           tool_calls := none, tool_call_id := some call.id }]
      let res := openAIToolLoop exec rest msgs2
      (res.1, res.2.1, (call.agentName, call.prompt) :: res.2.2)

/-- All tool-call ids recorded on assistant messages of a message list. -/
def toolCallIds (msgs : List OAIMessage) : List String :=
  msgs.foldr
    (fun m acc =>
      (match m.tool_calls with
       | some cs => cs.map (fun c => c.id)
       | none => []) ++ acc) []

/-- All `tool_call_id` values of role-`tool` response messages of a message
list. -/
def toolResponseIds (msgs : List OAIMessage) : List String :=
  msgs.filterMap (fun m => if m.role = "tool" then m.tool_call_id else none)

/-- The observable outcome of one form submission. -/
inductive SubmitEffect
  | noop
  | oneOffReply (display : String)
  | turnCompleted (finalText : String)
  | turnFailed (errMsg : String)
  | turnDivergent
deriving DecidableEq, Repr

/-- Embedding of the construction of the initial OpenAI user message
(`src/index.tsx` lines 528-532): a lone text part collapses to a plain
string content, otherwise the parts array is kept. The staged file is the
pair of its mime type and base64 data. -/
def mkUserMessage (userInput : String) (file : Option (String × String)) :
    OAIMessage :=
  let contentParts : List OAIContentPart :=
    (if userInput ≠ "" then [.text userInput] else []) ++
    (match file with
     | some (m, d) => [.imageUrl ("data:" ++ m ++ ";base64," ++ d)]
     | none => [])
  { role := "user",
    content :=
      match contentParts with
      | [.text t] => .str t
      | ps => .parts ps,
    tool_calls := none, tool_call_id := none }

/-- Embedding of the OpenAI orchestrator branch of `handleChatSubmit`
together with its try-catch persistence behaviour (`src/index.tsx` lines
459-609): push the user message, run the tool-call loop, and save the
resulting message list under the session key only when the loop completes;
a thrown provider error reaches the catch block, which performs no save. -/
def openAISubmit (exec : String → String → String)
    (script : List (Except String OAIRound))
    (sessionKey : String) (userInput : String) (file : Option (String × String))
    (msgs : List OAIMessage) (db : DB) :
    SubmitEffect × List OAIMessage × DB :=
  let msgs1 := msgs ++ [mkUserMessage userInput file]
  match openAIToolLoop exec script msgs1 with
  | (.completed finalText, msgs2, _) =>
    (.turnCompleted finalText, msgs2,
     saveHistory db sessionKey (msgs2.map .openai))
  | (.failed e, msgs2, _) => (.turnFailed e, msgs2, db)
  | (.divergent, msgs2, _) => (.turnDivergent, msgs2, db)

/-- Embedding of the Gemini orchestrator branch of `handleChatSubmit` with
its try-catch persistence behaviour (`src/index.tsx` lines 459-609). The
Gemini chat context lives inside the provider SDK object; the transcript it
would report through `geminiChat.getHistory()` at save time is passed in as
`chatHistoryAtSave`, since its evolution is owned by the external SDK. Only
a completed loop reaches the save; a thrown provider error reaches the
catch block, which performs no save. -/
def geminiSubmit (exec : String → String → String)
    (script : List (Except String GeminiRound))
    (sessionKey : String) (chatHistoryAtSave : List GeminiMessage)
    (db : DB) : SubmitEffect × DB :=
  match geminiToolLoop exec script with
  | (.completed finalText, _) =>
    (.turnCompleted finalText,
     saveHistory db sessionKey (chatHistoryAtSave.map .gemini))
  | (.failed e, _) => (.turnFailed e, db)
  | (.divergent, _) => (.turnDivergent, db)

/-- Embedding of the whole of `handleChatSubmit` for the OpenAI provider
(`src/index.tsx` lines 356-609): route the raw input through the mention
prologue, then either stop, execute a one-off delegation via
`executeInvokeAgent`, or run the orchestrator branch. State threaded
through: the in-memory `openAIMessages` context and the store. -/
def handleChatSubmitOpenAI (subProvider : String → String → Except String String)
    (script : List (Except String OAIRound))
    (activePersona : PersonaKey)
    (rawInput : String) (file : Option (String × String))
    (msgs : List OAIMessage) (db : DB) :
    SubmitEffect × List OAIMessage × DB :=
  match handleSubmitDispatch activePersona file.isSome rawInput with
  | .noop => (.noop, msgs, db)
  | .oneOffDelegation agentName promptForAgent =>
    (.oneOffReply (executeInvokeAgent subProvider agentName promptForAgent),
     msgs, db)
  | .orchestrate userInput _ =>
    openAISubmit (executeInvokeAgent subProvider) script
      ("openai-" ++ activePersona.str) userInput file msgs db

/-- Embedding of the whole of `handleChatSubmit` for the Gemini provider
(`src/index.tsx` lines 356-609); the Gemini chat context is owned by the
provider SDK, so only the store is threaded. -/
def handleChatSubmitGemini (subProvider : String → String → Except String String)
    (script : List (Except String GeminiRound))
    (activePersona : PersonaKey)
    (rawInput : String) (file : Option (String × String))
    (chatHistoryAtSave : List GeminiMessage) (db : DB) :
    SubmitEffect × DB :=
  match handleSubmitDispatch activePersona file.isSome rawInput with
  | .noop => (.noop, db)
  | .oneOffDelegation agentName promptForAgent =>
    (.oneOffReply (executeInvokeAgent subProvider agentName promptForAgent), db)
  | .orchestrate _ _ =>
    geminiSubmit (executeInvokeAgent subProvider) script
      ("gemini-" ++ activePersona.str) chatHistoryAtSave db

/-- The two provider identifiers of the model selector. -/
inductive Provider
  | gemini
  | openai
deriving DecidableEq, Repr

/-- The string form of a provider identifier. -/
def Provider.str : Provider → String
  | .gemini => "gemini"
  | .openai => "openai"

/-- The session key `provider-personaKey` interpolated at `src/index.tsx`
lines 205 and 431. -/
def sessionKeyOf (provider : Provider) (persona : PersonaKey) : String :=
  provider.str ++ "-" ++ persona.str

/-- The live in-memory conversation context: the Gemini chat object reduced
to its system instruction and seeded history, or the OpenAI message list.
Histories are kept in the stored union shape because the source passes the
loaded history through unreshaped casts. -/
inductive LiveContext
  | geminiChatCtx (systemInstruction : String) (history : ChatHistory)
  | openaiCtx (msgs : ChatHistory)
deriving DecidableEq, Repr

/-- Embedding of `resetChatState` (`src/index.tsx` lines 186-197): a fresh
Gemini chat carrying the system prompt out-of-band, or an OpenAI message
list holding exactly the system message. Provider clients are assumed
configured. -/
def resetChatState (provider : Provider) (persona : PersonaKey) : LiveContext :=
  let systemPrompt := generateSystemPrompt persona
  match provider with
  | .gemini => .geminiChatCtx systemPrompt []
  | .openai =>
    .openaiCtx
      [.openai { role := "system", content := .str systemPrompt,
                 tool_calls := none, tool_call_id := none }]

/-- The restore arm of `handleSessionSwitch` (`src/index.tsx` lines
220-231): seed a Gemini chat with the stored history, or adopt the stored
history as the OpenAI message list, verbatim in both cases. -/
def restoreChatState (provider : Provider) (persona : PersonaKey)
    (history : ChatHistory) : LiveContext :=
  match provider with
  | .gemini => .geminiChatCtx (generateSystemPrompt persona) history
  | .openai => .openaiCtx history

/-- Embedding of `handleSessionSwitch` (`src/index.tsx` lines 202-243):
load the stored session for the composite key; restore it into the live
context if it exists and some stored message has role "user", otherwise
create a fresh context. The store itself is only read. -/
def handleSessionSwitch (db : DB) (provider : Provider)
    (selectedPersona : PersonaKey) : LiveContext × DB :=
  let sessionKey := sessionKeyOf provider selectedPersona
  let session := getHistory db sessionKey
  let hasMeaningfulHistory :=
    match session with
    | some s => s.history.any (fun m => roleOfStored m = "user")
    | none => false
  match session, hasMeaningfulHistory with
  | some s, true => (restoreChatState provider selectedPersona s.history, db)
  | _, _ => (resetChatState provider selectedPersona, db)

/-- A trivial sub-agent provider used to instantiate witnesses. -/
def subProviderConst (reply : String) : String → String → Except String String :=
  fun _ _ => .ok reply

/-- A trivial delegation executor used to instantiate witnesses. -/
def execConst (reply : String) : String → String → String :=
  fun _ _ => reply

/-- A string matched by the mention regex is nonempty. -/
theorem matchMention_some_ne_empty {s : String} {m : MentionMatch}
    (h : matchMention s = some m) : s ≠ "" := by
  intro he
  subst he
  exact Option.noConfusion h

/-- The termination and the delegation trace of the OpenAI tool-call loop do
not depend on the message list it started from. -/
theorem openAIToolLoop_msgs_independent (exec : String → String → String)
    (script : List (Except String OAIRound)) :
    ∀ msgs msgs' : List OAIMessage,
      (openAIToolLoop exec script msgs).1 = (openAIToolLoop exec script msgs').1 ∧
      (openAIToolLoop exec script msgs).2.2 = (openAIToolLoop exec script msgs').2.2 := by
  induction script with
  | nil => exact fun _ _ => ⟨rfl, rfl⟩
  | cons hd rest ih =>
    intro msgs msgs'
    match hd with
    | .error e => exact ⟨rfl, rfl⟩
    | .ok ⟨rt, []⟩ => exact ⟨rfl, rfl⟩
    | .ok ⟨rt, call :: calls⟩ =>
      exact ⟨(ih _ _).1, congrArg (List.cons (call.agentName, call.prompt)) (ih _ _).2⟩

/-- C3: the system-prompt builder is a pure function of the persona record;
for the base persona CUA, which is the unique toneless persona, it returns
the raw description verbatim, and for every other persona it returns the
composed template interpolating name, role, description and tone. -/
theorem generateSystemPrompt_spec :
    (PERSONAS .CUA).tone = none ∧
    generateSystemPrompt .CUA = (PERSONAS .CUA).description ∧
    (∀ k : PersonaKey, k ≠ .CUA → ∃ t, (PERSONAS k).tone = some t ∧
      generateSystemPrompt k =
        "You are " ++ (PERSONAS k).name ++ ", a " ++ (PERSONAS k).role ++ ". " ++
          (PERSONAS k).description ++ " Your tone must be " ++ t ++
          ". You can invoke other agents for tasks outside your expertise.") := by
  refine ⟨rfl, rfl, ?_⟩
  intro k hk
  cases k
  case CUA => exact absurd rfl hk
  all_goals exact ⟨_, rfl, rfl⟩

/-- Witness for C3 at the Lyra persona. -/
theorem generateSystemPrompt_spec_witness :
    ∃ t, (PERSONAS .Lyra).tone = some t ∧
      generateSystemPrompt .Lyra =
        "You are " ++ (PERSONAS .Lyra).name ++ ", a " ++ (PERSONAS .Lyra).role ++ ". " ++
          (PERSONAS .Lyra).description ++ " Your tone must be " ++ t ++
          ". You can invoke other agents for tasks outside your expertise." :=
  generateSystemPrompt_spec.2.2 .Lyra (by decide)

/-- C1: the delegation executor resolves agent names by an exact,
case-sensitive map lookup, although the mention prologue resolves the same
name case-insensitively; the lowercase mention "@lyra hello" is routed to
the executor with the raw name "lyra", which then misses and yields the
unknown-agent error, while "Lyra" succeeds. The miss is indeed reported as
an unknown-agent failure string. -/
theorem executeInvokeAgent_caseSensitive_bug :
    PERSONA_NAME_TO_KEY_MAP "Lyra" = some PersonaKey.Lyra ∧
    PERSONA_NAME_TO_KEY_MAP "lyra" = none ∧
    findAgentNameKey "lyra" = some "Lyra" ∧
    handleSubmitDispatch .CUA false "@lyra hello" = .oneOffDelegation "lyra" "hello" ∧
    (∀ subProvider : String → String → Except String String,
      executeInvokeAgent subProvider "lyra" "hello" =
        "Error: Agent 'lyra' not found.") ∧
    executeInvokeAgent (subProviderConst "pong") "Lyra" "hello" = "pong" :=
  ⟨rfl, rfl, rfl, rfl, fun _ => rfl, rfl⟩

/-- C8: saving a transcript under a key and loading that key returns the
record holding exactly that transcript, for an arbitrary transcript in the
union of the two provider-native shapes; the store neither reshapes nor
validates it. -/
theorem saveHistory_getHistory_roundtrip (db : DB) (key : String) (T : ChatHistory) :
    getHistory (saveHistory db key T) key = some ⟨key, T⟩ := by
  simp [getHistory, saveHistory, dbGet, dbPut]

/-- C4: a scripted provider that emits one tool call in its first round and
only text in its second drives the loop, on either provider, through
exactly one delegation to the executor and then terminates completed, with
the final text equal to the text of the last round. -/
theorem scripted_single_delegation_turn (exec : String → String → String)
    (t1 t2 : String) (c : GeminiFunctionCall) (oc : OAIToolCall)
    (msgs : List OAIMessage) :
    geminiToolLoop exec [.ok ⟨t1, [c]⟩, .ok ⟨t2, []⟩]
      = (.completed t2, [(c.agentName, c.prompt)]) ∧
    (openAIToolLoop exec [.ok ⟨t1, [oc]⟩, .ok ⟨t2, []⟩] msgs).1 = .completed t2 ∧
    (openAIToolLoop exec [.ok ⟨t1, [oc]⟩, .ok ⟨t2, []⟩] msgs).2.2
      = [(oc.agentName, oc.prompt)] :=
  ⟨rfl, rfl, rfl⟩

/-- C5: in a round whose tool-call list is `c :: cs`, only the first call
`c` is handed to the delegation executor, on either provider: the
termination and the delegation trace are those of the same script with the
extra calls `cs` dropped, and the round contributes exactly the delegation
of `c`. -/
theorem only_first_toolCall_executed (exec : String → String → String)
    (t : String) (c : GeminiFunctionCall) (cs : List GeminiFunctionCall)
    (rest : List (Except String GeminiRound))
    (oc : OAIToolCall) (ocs : List OAIToolCall)
    (orest : List (Except String OAIRound)) (msgs : List OAIMessage) :
    geminiToolLoop exec (.ok ⟨t, c :: cs⟩ :: rest)
      = geminiToolLoop exec (.ok ⟨t, [c]⟩ :: rest) ∧
    (geminiToolLoop exec (.ok ⟨t, c :: cs⟩ :: rest)).2
      = (c.agentName, c.prompt) :: (geminiToolLoop exec rest).2 ∧
    (openAIToolLoop exec (.ok ⟨t, oc :: ocs⟩ :: orest) msgs).1
      = (openAIToolLoop exec (.ok ⟨t, [oc]⟩ :: orest) msgs).1 ∧
    (openAIToolLoop exec (.ok ⟨t, oc :: ocs⟩ :: orest) msgs).2.2
      = (openAIToolLoop exec (.ok ⟨t, [oc]⟩ :: orest) msgs).2.2 ∧
    ((openAIToolLoop exec (.ok ⟨t, oc :: ocs⟩ :: orest) msgs).2.2).head?
      = some (oc.agentName, oc.prompt) := by
  refine ⟨rfl, rfl, ?_, ?_, rfl⟩
  · exact (openAIToolLoop_msgs_independent exec orest _ _).1
  · exact congrArg (List.cons (oc.agentName, oc.prompt))
      (openAIToolLoop_msgs_independent exec orest _ _).2

/-- C2: a turn that ends in a thrown provider error performs no save, so
the store is returned unchanged; a save happens only on the completed path,
and then it stores the exported transcript under the session key. Stated
for both provider branches of the submit handler. -/
theorem failed_turn_preserves_store (exec : String → String → String)
    (oscript : List (Except String OAIRound))
    (gscript : List (Except String GeminiRound))
    (key input : String) (file : Option (String × String))
    (msgs : List OAIMessage) (ghist : List GeminiMessage) (db : DB) :
    (∀ e, (openAISubmit exec oscript key input file msgs db).1 = .turnFailed e →
      (openAISubmit exec oscript key input file msgs db).2.2 = db) ∧
    ((openAISubmit exec oscript key input file msgs db).1 = .turnDivergent →
      (openAISubmit exec oscript key input file msgs db).2.2 = db) ∧
    (∀ t, (openAISubmit exec oscript key input file msgs db).1 = .turnCompleted t →
      (openAISubmit exec oscript key input file msgs db).2.2
        = saveHistory db key
            (((openAISubmit exec oscript key input file msgs db).2.1).map .openai)) ∧
    (∀ e, (geminiSubmit exec gscript key ghist db).1 = .turnFailed e →
      (geminiSubmit exec gscript key ghist db).2 = db) ∧
    ((geminiSubmit exec gscript key ghist db).1 = .turnDivergent →
      (geminiSubmit exec gscript key ghist db).2 = db) ∧
    (∀ t, (geminiSubmit exec gscript key ghist db).1 = .turnCompleted t →
      (geminiSubmit exec gscript key ghist db).2
        = saveHistory db key (ghist.map .gemini)) := by
  rcases hres : openAIToolLoop exec oscript (msgs ++ [mkUserMessage input file])
    with ⟨term, m2, ds⟩
  rcases hg : geminiToolLoop exec gscript with ⟨gterm, gds⟩
  refine ⟨?_, ?_, ?_, ?_, ?_, ?_⟩
  · intro e he
    cases term with
    | failed e2 => simp [openAISubmit, hres]
    | completed tt => simp [openAISubmit, hres] at he
    | divergent => simp [openAISubmit, hres] at he
  · intro he
    cases term with
    | divergent => simp [openAISubmit, hres]
    | completed tt => simp [openAISubmit, hres] at he
    | failed e2 => simp [openAISubmit, hres] at he
  · intro t ht
    cases term with
    | completed tt => simp [openAISubmit, hres]
    | failed e2 => simp [openAISubmit, hres] at ht
    | divergent => simp [openAISubmit, hres] at ht
  · intro e he
    cases gterm with
    | failed e2 => simp [geminiSubmit, hg]
    | completed tt => simp [geminiSubmit, hg] at he
    | divergent => simp [geminiSubmit, hg] at he
  · intro he
    cases gterm with
    | divergent => simp [geminiSubmit, hg]
    | completed tt => simp [geminiSubmit, hg] at he
    | failed e2 => simp [geminiSubmit, hg] at he
  · intro t ht
    cases gterm with
    | completed tt => simp [geminiSubmit, hg]
    | failed e2 => simp [geminiSubmit, hg] at ht
    | divergent => simp [geminiSubmit, hg] at ht

/-- Witness for C2: a provider error thrown on the first streamed round of
either branch leaves the empty store untouched. -/
theorem failed_turn_preserves_store_witness :
    (openAISubmit (execConst "r") [.error "network down"] "openai-CUA"
      "hello" none [] dbEmpty).2.2 = dbEmpty ∧
    (geminiSubmit (execConst "r") [.error "network down"] "gemini-CUA"
      [] dbEmpty).2 = dbEmpty := by
  refine ⟨?_, ?_⟩
  · exact (failed_turn_preserves_store (execConst "r") [.error "network down"] []
      "openai-CUA" "hello" none [] [] dbEmpty).1 "network down" rfl
  · exact (failed_turn_preserves_store (execConst "r") [] [.error "network down"]
      "gemini-CUA" "hello" none [] [] dbEmpty).2.2.2.1 "network down" rfl

/-- C6 is refuted at two concrete inputs with active persona Lyra. First,
the self-mention "@Lyra" with empty remainder is not stripped at all,
because the mention block requires a nonempty captured remainder; the raw
text "@Lyra" is submitted to the orchestrator as ordinary input, which
differs from the no-op produced by empty input. Second, the self-mention
"@Lyra @Kara hi" routes its remainder "@Kara hi" to the orchestrator as
plain text, while submitting the stripped input "@Kara hi" directly
routes a one-off delegation to Kara, so the stripped behaviours differ. -/
theorem self_mention_empty_remainder_not_noop :
    handleSubmitDispatch .Lyra false "@Lyra" = .orchestrate "@Lyra" false ∧
    handleSubmitDispatch .Lyra false "" = .noop ∧
    handleSubmitDispatch .Lyra false "@Lyra" ≠ handleSubmitDispatch .Lyra false "" ∧
    handleSubmitDispatch .Lyra false "@Lyra @Kara hi" = .orchestrate "@Kara hi" false ∧
    handleSubmitDispatch .Lyra false "@Kara hi" = .oneOffDelegation "Kara" "hi" ∧
    handleSubmitDispatch .Lyra false "@Lyra @Kara hi"
      ≠ handleSubmitDispatch .Lyra false "@Kara hi" := by
  refine ⟨rfl, rfl, ?_, rfl, rfl, ?_⟩
  · intro h
    exact SubmitDispatch.noConfusion h
  · intro h
    exact SubmitDispatch.noConfusion h

/-- C6 (amended): with no staged attachment, an input whose leading mention
resolves case-insensitively to the active persona and whose remainder is
nonempty proceeds down the ordinary orchestrator path with the trimmed
remainder as input and no one-off delegation; this coincides with
submitting the stripped input whenever the stripped input does not itself
match the mention regex. An empty remainder is not stripped: mention
handling is skipped and the raw input is submitted as ordinary text. -/
theorem self_mention_strips_to_plain_input (active : PersonaKey) (raw : String)
    (m : MentionMatch) (nameKey : String)
    (h1 : matchMention (jsTrim raw) = some m)
    (h2 : findAgentNameKey m.agentName = some nameKey)
    (h3 : PERSONA_NAME_TO_KEY_MAP nameKey = some active)
    (h5 : jsTrim m.rest ≠ "") :
    handleSubmitDispatch active false raw = .orchestrate (jsTrim m.rest) false ∧
    (matchMention (jsTrim m.rest) = none →
      handleSubmitDispatch active false m.rest = .orchestrate (jsTrim m.rest) false) := by
  have h0 : jsTrim raw ≠ "" := matchMention_some_ne_empty h1
  constructor
  · simp [handleSubmitDispatch, h0, h1, h2, h3, h5]
  · intro h6
    simp [handleSubmitDispatch, h5, h6]

/-- Witness for C6 (amended): the lowercase self-mention
"@lyra summarize this" with active persona Lyra routes to the orchestrator
with input "summarize this", exactly as the stripped input does. -/
theorem self_mention_strips_to_plain_input_witness :
    handleSubmitDispatch .Lyra false "@lyra summarize this"
      = .orchestrate "summarize this" false ∧
    handleSubmitDispatch .Lyra false "summarize this"
      = .orchestrate "summarize this" false := by
  have h := self_mention_strips_to_plain_input .Lyra "@lyra summarize this"
    ⟨"lyra", "summarize this"⟩ "Lyra" rfl rfl rfl (by decide)
  exact ⟨h.1, h.2 rfl⟩

/-- C7: with no staged attachment, a leading mention that resolves to a
persona different from the active one with nonempty remainder
short-circuits into the one-off delegation: the submit handler returns with
the in-memory OpenAI context and the store exactly as given (and likewise
the store on the Gemini branch), shows the one-off reply, and never runs
the provider tool-call loop — the scripted provider rounds are never
consulted. -/
theorem oneOff_delegation_frame
    (subProvider : String → String → Except String String)
    (oscript : List (Except String OAIRound))
    (gscript : List (Except String GeminiRound))
    (active : PersonaKey) (raw : String)
    (m : MentionMatch) (nameKey : String) (target : PersonaKey)
    (msgs : List OAIMessage) (ghist : List GeminiMessage) (db : DB)
    (h1 : matchMention (jsTrim raw) = some m)
    (h2 : findAgentNameKey m.agentName = some nameKey)
    (h3 : PERSONA_NAME_TO_KEY_MAP nameKey = some target)
    (h4 : target ≠ active)
    (h5 : jsTrim m.rest ≠ "") :
    handleChatSubmitOpenAI subProvider oscript active raw none msgs db
      = (.oneOffReply (executeInvokeAgent subProvider m.agentName (jsTrim m.rest)),
         msgs, db) ∧
    handleChatSubmitGemini subProvider gscript active raw none ghist db
      = (.oneOffReply (executeInvokeAgent subProvider m.agentName (jsTrim m.rest)),
         db) ∧
    (∀ oscript2, handleChatSubmitOpenAI subProvider oscript active raw none msgs db
      = handleChatSubmitOpenAI subProvider oscript2 active raw none msgs db) := by
  have h0 : jsTrim raw ≠ "" := matchMention_some_ne_empty h1
  have hd : handleSubmitDispatch active false raw
      = .oneOffDelegation m.agentName (jsTrim m.rest) := by
    simp [handleSubmitDispatch, h0, h1, h2, h3, h4, h5]
  have hfile : (none : Option (String × String)).isSome = false := rfl
  refine ⟨?_, ?_, ?_⟩
  · simp [handleChatSubmitOpenAI, hfile, hd]
  · simp [handleChatSubmitGemini, hfile, hd]
  · intro oscript2
    simp [handleChatSubmitOpenAI, hfile, hd]

/-- Witness for C7: mentioning Kara while Lyra is active, with no staged
file, yields a one-off reply and returns the given context and store. -/
theorem oneOff_delegation_frame_witness :
    handleChatSubmitOpenAI (subProviderConst "pong") [] .Lyra "@Kara audit this"
      none [] dbEmpty
      = (.oneOffReply "pong", [], dbEmpty) ∧
    handleChatSubmitGemini (subProviderConst "pong") [] .Lyra "@Kara audit this"
      none [] dbEmpty
      = (.oneOffReply "pong", dbEmpty) := by
  have h := oneOff_delegation_frame (subProviderConst "pong") [] [] .Lyra
    "@Kara audit this" ⟨"Kara", "audit this"⟩ "Kara" .Kara [] [] dbEmpty
    rfl rfl rfl (by decide) (by decide)
  exact ⟨h.1, h.2.1⟩

/-- C9: an OpenAI round whose stream accumulated more than one tool call
appends one assistant message recording all accumulated calls but only one
role-tool response message, answering the first call; the resulting message
list, which the completed path persists, then contains a tool-call id with
no matching tool response. -/
theorem multi_toolCall_round_unmatched_ids (exec : String → String → String)
    (t1 t2 : String) (c1 c2 : OAIToolCall) (cs : List OAIToolCall)
    (msgs : List OAIMessage)
    (hid : c2.id ≠ c1.id) :
    (openAIToolLoop exec [.ok ⟨t1, c1 :: c2 :: cs⟩, .ok ⟨t2, []⟩] msgs).1
      = .completed t2 ∧
    (openAIToolLoop exec [.ok ⟨t1, c1 :: c2 :: cs⟩, .ok ⟨t2, []⟩] msgs).2.1
      = msgs ++
        [{ role := "assistant", content := .null,
           tool_calls := some (c1 :: c2 :: cs), tool_call_id := none },
         { role := "tool", content := .str (exec c1.agentName c1.prompt),
           tool_calls := none, tool_call_id := some c1.id },
         { role := "assistant", content := .str t2,
           tool_calls := none, tool_call_id := none }] ∧
    c2.id ∈ toolCallIds
        [{ role := "assistant", content := .null,
           tool_calls := some (c1 :: c2 :: cs), tool_call_id := none },
         { role := "tool", content := .str (exec c1.agentName c1.prompt),
           tool_calls := none, tool_call_id := some c1.id },
         { role := "assistant", content := .str t2,
           tool_calls := none, tool_call_id := none }] ∧
    c2.id ∉ toolResponseIds
        [{ role := "assistant", content := .null,
           tool_calls := some (c1 :: c2 :: cs), tool_call_id := none },
         { role := "tool", content := .str (exec c1.agentName c1.prompt),
           tool_calls := none, tool_call_id := some c1.id },
         { role := "assistant", content := .str t2,
           tool_calls := none, tool_call_id := none }] := by
  refine ⟨rfl, ?_, ?_, ?_⟩
  · simp [openAIToolLoop]
  · simp [toolCallIds]
  · simp [toolResponseIds, hid]

/-- Witness for C9: two distinct scripted tool-call ids, of which only the
first receives a tool response. -/
theorem multi_toolCall_round_unmatched_ids_witness :
    (openAIToolLoop (execConst "ok")
      [.ok ⟨"", [⟨"call_1", "invokeAgent", "Kara", "audit"⟩,
                 ⟨"call_2", "invokeAgent", "Sophia", "analyze"⟩]⟩,
       .ok ⟨"done", []⟩] []).1 = .completed "done" ∧
    "call_2" ∉ toolResponseIds
        [{ role := "assistant", content := .null,
           tool_calls := some [⟨"call_1", "invokeAgent", "Kara", "audit"⟩,
                               ⟨"call_2", "invokeAgent", "Sophia", "analyze"⟩],
           tool_call_id := none },
         { role := "tool", content := .str (execConst "ok" "Kara" "audit"),
           tool_calls := none, tool_call_id := some "call_1" },
         { role := "assistant", content := .str "done",
           tool_calls := none, tool_call_id := none }] := by
  have h := multi_toolCall_round_unmatched_ids (execConst "ok") "" "done"
    ⟨"call_1", "invokeAgent", "Kara", "audit"⟩
    ⟨"call_2", "invokeAgent", "Sophia", "analyze"⟩ [] [] (by decide)
  exact ⟨h.1, h.2.2.2⟩

/-- C10: a session switch restores a stored history into the live context
exactly when some stored message has role "user"; a stored record without
any user-role message yields the same fresh context as absent history, and
the store is returned unchanged in every case (the record is not deleted). -/
theorem sessionSwitch_user_role_gate (db : DB) (provider : Provider)
    (persona : PersonaKey) :
    (handleSessionSwitch db provider persona).2 = db ∧
    (∀ s, getHistory db (sessionKeyOf provider persona) = some s →
      (s.history.any (fun m => roleOfStored m = "user") = false →
        (handleSessionSwitch db provider persona).1
          = resetChatState provider persona) ∧
      (s.history.any (fun m => roleOfStored m = "user") = true →
        (handleSessionSwitch db provider persona).1
          = restoreChatState provider persona s.history)) ∧
    (getHistory db (sessionKeyOf provider persona) = none →
      (handleSessionSwitch db provider persona).1
        = resetChatState provider persona) := by
  rcases hs : getHistory db (sessionKeyOf provider persona) with _ | s
  · refine ⟨?_, ?_, ?_⟩
    · simp [handleSessionSwitch, hs]
    · intro s hs2
      exact Option.noConfusion hs2
    · intro _
      simp [handleSessionSwitch, hs]
  · rcases hb : s.history.any (fun m => roleOfStored m = "user") with _ | _
    · refine ⟨?_, ?_, ?_⟩
      · simp [handleSessionSwitch, hs, hb]
      · intro s2 hs2
        obtain rfl : s = s2 := Option.some.inj hs2
        refine ⟨fun _ => ?_, fun hb2 => ?_⟩
        · simp [handleSessionSwitch, hs, hb]
        · rw [hb] at hb2
          exact Bool.noConfusion hb2
      · intro hn
        exact Option.noConfusion hn
    · refine ⟨?_, ?_, ?_⟩
      · simp [handleSessionSwitch, hs, hb]
      · intro s2 hs2
        obtain rfl : s = s2 := Option.some.inj hs2
        refine ⟨fun hb2 => ?_, fun _ => ?_⟩
        · rw [hb] at hb2
          exact Bool.noConfusion hb2
        · simp [handleSessionSwitch, hs, hb]
      · intro hn
        exact Option.noConfusion hn

/-- Witness for C10: a stored record holding only a system message is
treated like absent history, while a record holding a user message is
restored; the store is unchanged in both cases. -/
theorem sessionSwitch_user_role_gate_witness :
    (handleSessionSwitch
      (saveHistory dbEmpty "openai-Lyra"
        [.openai { role := "system", content := .str "sp",
                   tool_calls := none, tool_call_id := none }])
      .openai .Lyra).1 = resetChatState .openai .Lyra ∧
    (handleSessionSwitch
      (saveHistory dbEmpty "openai-Lyra"
        [.openai { role := "user", content := .str "hi",
                   tool_calls := none, tool_call_id := none }])
      .openai .Lyra).1
      = restoreChatState .openai .Lyra
          [.openai { role := "user", content := .str "hi",
                     tool_calls := none, tool_call_id := none }] ∧
    (handleSessionSwitch
      (saveHistory dbEmpty "openai-Lyra"
        [.openai { role := "system", content := .str "sp",
                   tool_calls := none, tool_call_id := none }])
      .openai .Lyra).2
      = saveHistory dbEmpty "openai-Lyra"
          [.openai { role := "system", content := .str "sp",
                     tool_calls := none, tool_call_id := none }] := by
  refine ⟨?_, ?_, ?_⟩
  · exact ((sessionSwitch_user_role_gate
      (saveHistory dbEmpty "openai-Lyra"
        [.openai { role := "system", content := .str "sp",
                   tool_calls := none, tool_call_id := none }]) .openai .Lyra).2.1
      ⟨"openai-Lyra",
        [.openai { role := "system", content := .str "sp",
                   tool_calls := none, tool_call_id := none }]⟩ rfl).1 rfl
  · exact ((sessionSwitch_user_role_gate
      (saveHistory dbEmpty "openai-Lyra"
        [.openai { role := "user", content := .str "hi",
                   tool_calls := none, tool_call_id := none }]) .openai .Lyra).2.1
      ⟨"openai-Lyra",
        [.openai { role := "user", content := .str "hi",
                   tool_calls := none, tool_call_id := none }]⟩ rfl).2 rfl
  · exact (sessionSwitch_user_role_gate
      (saveHistory dbEmpty "openai-Lyra"
        [.openai { role := "system", content := .str "sp",
                   tool_calls := none, tool_call_id := none }]) .openai .Lyra).1

end CuaChat
